import Mathlib

/-!
Verification of the flaskr blogging application's authentication and
authorization core (src/flaskr/auth.py, src/flaskr/blog.py) against its
specification, via a shallow embedding of the handlers over an explicit
relational store and request context.

The HTTP framework and the relational store are external collaborators:
we model the store as explicit lists of rows, the per-request identity
slot (g.user) as an `Option User` argument, and the client-held session
as a record holding an optional user id.  Each Flask view function
becomes a pure Lean function from (store, context, form inputs) to
(response, new store) or (response, new session).
-/

namespace Flaskr

/-- A row of the `user` table: `user(id PK, username UNIQUE NOT NULL,
password TEXT NOT NULL)`. The `password` field holds the opaque hash. -/
structure User where
  id : Nat
  username : String
  password : String
deriving Repr, DecidableEq

/-- A row of the `post` table: `post(id PK, title NOT NULL, body,
created DEFAULT now, author_id FK to user.id)`. -/
structure Post where
  id : Nat
  title : String
  body : String
  created : Nat
  author_id : Nat
deriving Repr, DecidableEq

/-- The relational store: the two tables the core touches. -/
structure DB where
  users : List User
  posts : List Post
deriving Repr, DecidableEq

/-- The client-held signed session token: at most a user id
(auth.py stores only `session[\x7b'user_id'\x7d]`-style state; `session.clear()`
empties it). -/
structure Session where
  user_id : Option Nat
deriving Repr, DecidableEq

/-- Modelled from the spec: `generate_password_hash` of werkzeug, an
external collaborator — a one-way salted hash, here abstracted as an
injective tagging so that `check_password_hash` can be evaluated. -/
def generate_password_hash (p : String) : String :=
  "pbkdf2$" ++ p

/-- Modelled from the spec: `check_password_hash` of werkzeug — hashes the
submitted password the same way and compares with the stored hash. -/
def check_password_hash (stored submitted : String) : Bool :=
  stored == generate_password_hash submitted

/-- The joined row produced by
`SELECT p.id, title, body, created, author_id, username FROM post p JOIN user u ON p.author_id = u.id`. -/
structure PostView where
  id : Nat
  title : String
  body : String
  created : Nat
  author_id : Nat
  username : String
deriving Repr, DecidableEq

/-- A handler's outcome at the framework boundary. `render` carries the
template name and the flashed messages; `abort` an HTTP error code;
`pyError` an unhandled Python exception escaping the handler. -/
inductive Response where
  | redirect (target : String)
  | render (template : String) (flashed : List String)
  | abort (code : Nat)
  | pyError (msg : String)
deriving Repr, DecidableEq

/-- `SELECT * FROM user WHERE username = ?` followed by `fetchone()`. -/
def findUserByName (db : DB) (username : String) : Option User :=
  db.users.find? (fun u => u.username == username)

/-- `SELECT * FROM user WHERE id = ?` followed by `fetchone()`. -/
def findUserById (db : DB) (id : Nat) : Option User :=
  db.users.find? (fun u => u.id == id)

/-- Autoincremented primary key for the next `user` row. -/
def nextUserId (db : DB) : Nat :=
  (db.users.map User.id).foldr max 0 + 1

/-- Autoincremented primary key for the next `post` row. -/
def nextPostId (db : DB) : Nat :=
  (db.posts.map Post.id).foldr max 0 + 1

/-- `INSERT INTO user (username, password) VALUES (?, ?)`: raises
`IntegrityError` (here `Except.error`) when the UNIQUE constraint on
`username` is violated. -/
def insertUser (db : DB) (username password : String) : Except Unit DB :=
  if db.users.any (fun u => u.username == username) then
    .error ()
  else
    .ok { db with users := db.users ++ [⟨nextUserId db, username, password⟩] }

/-- auth.py `register` view, POST branch: validates username then password,
inserts the hashed credential, and translates `IntegrityError` into the
already-registered message; on success redirects to the login view. -/
def register (db : DB) (username password : String) : Response × DB :=
  let error : Option String :=
    if username == "" then some "username not provided"
    else if password == "" then some "password not provided"
    else none
  match error with
  | some e => (.render "auth/register.html" [e], db)
  | none =>
    match insertUser db username (generate_password_hash password) with
    | .error _ =>
      (.render "auth/register.html" ["user " ++ username ++ " is already registered"], db)
    | .ok db' => (.redirect "auth.login", db')

/-- auth.py `login` view, POST branch: looks the user up by username; on a
missing user or a failed hash check flashes the one generic error and leaves
the session as it was; on success clears the session, stores the user's id,
and redirects to the index. -/
def login (db : DB) (sess : Session) (username password : String) :
    Response × Session :=
  match findUserByName db username with
  | none => (.render "auth/login.html" ["incorrect username or password"], sess)
  | some user =>
    if check_password_hash user.password password then
      (.redirect "index", { user_id := some user.id })
    else
      (.render "auth/login.html" ["incorrect username or password"], sess)

/-- auth.py `logout` view: `session.clear()` then redirect to index. -/
def logout (_sess : Session) : Response × Session :=
  (.redirect "index", { user_id := none })

/-- auth.py `load_logged_in_user`, run before every view: resolves the
session's user id to a full `user` row, or `None` when the session is empty
or the id matches no row. -/
def load_logged_in_user (db : DB) (sess : Session) : Option User :=
  match sess.user_id with
  | none => none
  | some uid => findUserById db uid

/-- auth.py `login_required` decorator: when the identity slot is empty the
wrapped view is not consulted and the guard answers with a redirect to the
login view; otherwise the wrapped view's own outcome stands. -/
def login_required {ρ : Type} (guser : Option User) (onLogin : ρ) (view : ρ) : ρ :=
  match guser with
  | none => onLogin
  | some _ => view

/-- Builds the joined row of the post/user SELECT from its two source rows. -/
def mkView (p : Post) (u : User) : PostView :=
  ⟨p.id, p.title, p.body, p.created, p.author_id, u.username⟩

/-- `SELECT ... FROM post p JOIN user u ON p.author_id = u.id WHERE p.id = ?`
followed by `fetchone()`: an inner join, so the row exists only when both the
post and its owning user exist. -/
def postUserJoin (db : DB) (id : Nat) : Option PostView :=
  (db.posts.find? (fun p => p.id == id)).bind fun p =>
    (findUserById db p.author_id).map fun u => mkView p u

/-- Outcome of blog.py `get_post`: the joined row, an `abort`, or an
unhandled Python exception. -/
inductive GetPostResult where
  | ok (post : PostView)
  | abort (code : Nat)
  | pyError (msg : String)
deriving Repr, DecidableEq

/-- The message of the exception Python raises for `None['id']`. -/
def noneSubscript : String :=
  "TypeError: NoneType object is not subscriptable"

/-- blog.py `get_post`: fetch the joined row, `abort(404)` when absent; with
`check_author` set, `abort(403)` when the stored author id differs from the
resolved identity's id — dereferencing `g.user['id']` raises when the slot is
empty. -/
def get_post (db : DB) (guser : Option User) (id : Nat)
    (check_author : Bool := true) : GetPostResult :=
  match postUserJoin db id with
  | none => .abort 404
  | some post =>
    if check_author then
      match guser with
      | none => .pyError noneSubscript
      | some gu => if post.author_id ≠ gu.id then .abort 403 else .ok post
    else .ok post

/-- All joined rows of the post/user inner join, in table order. -/
def joinedPosts (db : DB) : List PostView :=
  db.posts.filterMap fun p => (findUserById db p.author_id).map fun u => mkView p u

/-- Inserts a row into a list kept newest-first by `created`. -/
def insertByCreated (v : PostView) : List PostView → List PostView
  | [] => [v]
  | w :: ws => if w.created ≤ v.created then v :: w :: ws else w :: insertByCreated v ws

/-- `ORDER BY created DESC`. -/
def sortByCreatedDesc : List PostView → List PostView
  | [] => []
  | v :: vs => insertByCreated v (sortByCreatedDesc vs)

/-- blog.py `index` view: all joined rows, newest first. -/
def index (db : DB) : List PostView :=
  sortByCreatedDesc (joinedPosts db)

/-- blog.py `create` view, POST branch: an empty title flashes a validation
error; otherwise the query arguments `(title, body, g.user['id'])` are built —
raising when the identity slot is empty — and the insert runs with
`created = now` and the identity's id as author. -/
def create (db : DB) (guser : Option User) (now : Nat) (title body : String) :
    Response × DB :=
  if title == "" then
    (.render "blog/create.html" ["title is required"], db)
  else
    match guser with
    | none => (.pyError noneSubscript, db)
    | some u =>
      (.redirect "blog.index",
        { db with posts := db.posts ++ [⟨nextPostId db, title, body, now, u.id⟩] })

/-- The `/create` route as blog.py registers it: the `@login_required`
decorator is commented out in the source, so the handler runs unguarded. -/
def createRoute (db : DB) (guser : Option User) (now : Nat) (title body : String) :
    Response × DB :=
  create db guser now title body

/-- blog.py `update` view, POST branch: `get_post(id)` first (propagating its
abort), then the same title validation as create, then
`UPDATE post SET title = ?, body = ? WHERE id = ?`. -/
def update (db : DB) (guser : Option User) (id : Nat) (title body : String) :
    Response × DB :=
  match get_post db guser id with
  | .abort c => (.abort c, db)
  | .pyError m => (.pyError m, db)
  | .ok _post =>
    if title == "" then
      (.render "blog/update.html" ["title is required"], db)
    else
      (.redirect "blog.index",
        { db with posts := db.posts.map fun p =>
            if p.id == id then { p with title := title, body := body } else p })

/-- blog.py `delete` view: `get_post(id)` first (propagating its abort), then
`DELETE FROM post WHERE id = ?`. -/
def delete (db : DB) (guser : Option User) (id : Nat) : Response × DB :=
  match get_post db guser id with
  | .abort c => (.abort c, db)
  | .pyError m => (.pyError m, db)
  | .ok _ =>
    (.redirect "blog.index",
      { db with posts := db.posts.filter fun p => p.id ≠ id })

/-! ### Helper lemmas about row lookup and ordering -/

/-- A `find?` keyed on a column that is `Nodup` across the table returns the
row itself when given that row's key. -/
theorem find_by_key_of_nodup {α : Type} (key : α → Nat) (l : List α) (x : α)
    (hnd : (l.map key).Nodup) (hmem : x ∈ l) :
    l.find? (fun y => key y == key x) = some x := by
  induction l with
  | nil => cases hmem
  | cons a as ih =>
    rw [List.map_cons, List.nodup_cons] at hnd
    rcases List.mem_cons.mp hmem with rfl | hx
    · simp [List.find?_cons]
    · have hne : key a ≠ key x := fun h => hnd.1 (h ▸ List.mem_map_of_mem key hx)
      have hfalse : (key a == key x) = false := by simp [hne]
      rw [List.find?_cons, hfalse]
      exact ih hnd.2 hx

/-- Two rows of a table sharing a `Nodup` key are the same row. -/
theorem eq_of_key_eq_of_nodup {α : Type} (key : α → Nat) (l : List α)
    (hnd : (l.map key).Nodup) {x y : α} (hx : x ∈ l) (hy : y ∈ l)
    (h : key x = key y) : x = y :=
  List.inj_on_of_nodup_map hnd hx hy h

/-- Looking a stored user up by their own id succeeds when user ids are
unique. -/
theorem findUserById_self (db : DB) (u : User)
    (hnd : (db.users.map User.id).Nodup) (hmem : u ∈ db.users) :
    findUserById db u.id = some u :=
  find_by_key_of_nodup User.id db.users u hnd hmem

/-- Looking a stored post up by its own id succeeds when post ids are
unique. -/
theorem findPost_self (db : DB) (p : Post)
    (hnd : (db.posts.map Post.id).Nodup) (hmem : p ∈ db.posts) :
    db.posts.find? (fun q => q.id == p.id) = some p :=
  find_by_key_of_nodup Post.id db.posts p hnd hmem

/-- Insertion keeps exactly the members it is given. -/
theorem mem_insertByCreated (v w : PostView) (l : List PostView) :
    w ∈ insertByCreated v l ↔ w = v ∨ w ∈ l := by
  induction l with
  | nil => simp [insertByCreated]
  | cons a as ih =>
    rw [insertByCreated]
    by_cases h : a.created ≤ v.created
    · simp [h, List.mem_cons]
    · rw [if_neg h]
      simp only [List.mem_cons, ih]
      tauto

/-- Sorting keeps exactly the members it is given. -/
theorem mem_sortByCreatedDesc (w : PostView) (l : List PostView) :
    w ∈ sortByCreatedDesc l ↔ w ∈ l := by
  induction l with
  | nil => simp [sortByCreatedDesc]
  | cons a as ih =>
    rw [sortByCreatedDesc, mem_insertByCreated]
    simp [ih, List.mem_cons]

/-- Fetching a stored post by its id under its own author's identity yields
the joined row (no abort): the join finds the author and the ownership check
compares equal ids. -/
theorem get_post_author_ok (db : DB) (a : User) (p : Post)
    (hndU : (db.users.map User.id).Nodup)
    (hndP : (db.posts.map Post.id).Nodup)
    (ha : a ∈ db.users) (hp : p ∈ db.posts)
    (hauthor : p.author_id = a.id) :
    get_post db (some a) p.id true = .ok (mkView p a) := by
  have hfind : db.posts.find? (fun q => q.id == p.id) = some p :=
    findPost_self db p hndP hp
  have huser : findUserById db p.author_id = some a := by
    rw [hauthor]; exact findUserById_self db a hndU ha
  have hjoin : postUserJoin db p.id = some (mkView p a) := by
    rw [postUserJoin, hfind]
    simp [huser]
  simp [get_post, hjoin, mkView, hauthor]

/-! ### Concrete fixtures used by the witnesses -/

/-- A registered user. -/
def alice : User := ⟨1, "alice", generate_password_hash "pw1"⟩

/-- A second registered user, distinct from `alice`. -/
def bob : User := ⟨2, "bob", generate_password_hash "pw2"⟩

/-- A post authored by `alice`. -/
def post1 : Post := ⟨1, "T", "B", 10, 1⟩

/-- A store with two users and one post by `alice`. -/
def dbAB : DB := ⟨[alice, bob], [post1]⟩

/-- A store holding only `alice` and no posts. -/
def dbAlice : DB := ⟨[alice], []⟩

/-- The empty store. -/
def dbEmpty : DB := ⟨[], []⟩

/-! ### The claims -/

/-- C2: after a successful login the resolver maps the new session to that
user's full record on the next request, and after logout it maps the session
to anonymous, whatever the prior session held. -/
theorem C2_session_state_machine (db : DB) (sess : Session)
    (username password : String) (u : User)
    (hnd : (db.users.map User.id).Nodup)
    (hu : findUserByName db username = some u)
    (hpw : check_password_hash u.password password = true) :
    load_logged_in_user db (login db sess username password).2 = some u
    ∧ load_logged_in_user db (logout sess).2 = none := by
  refine ⟨?_, rfl⟩
  have hmem : u ∈ db.users := List.mem_of_find?_eq_some hu
  simp [login, hu, hpw, load_logged_in_user]
  exact findUserById_self db u hnd hmem

/-- C2 witness: logging `alice` in from a session that held `bob`'s id
resolves to `alice` next request; logging out resolves to anonymous. -/
theorem C2_session_state_machine_witness :
    load_logged_in_user dbAB (login dbAB ⟨some 2⟩ "alice" "pw1").2 = some alice
    ∧ load_logged_in_user dbAB (logout ⟨some 2⟩).2 = none :=
  C2_session_state_machine dbAB ⟨some 2⟩ "alice" "pw1" alice
    (by decide) (by decide) (by decide)

/-- C3: under the non-author's identity, fetching with the ownership check on
aborts 403; under the author's identity it returns the joined row. -/
theorem C3_ownership_isolation (db : DB) (a b : User) (p : Post)
    (hndU : (db.users.map User.id).Nodup)
    (hndP : (db.posts.map Post.id).Nodup)
    (ha : a ∈ db.users) (hb : b ∈ db.users) (hab : a.id ≠ b.id)
    (hp : p ∈ db.posts) (hauthor : p.author_id = a.id) :
    get_post db (some b) p.id true = .abort 403
    ∧ get_post db (some a) p.id true = .ok (mkView p a) := by
  refine ⟨?_, get_post_author_ok db a p hndU hndP ha hp hauthor⟩
  have hfind : db.posts.find? (fun q => q.id == p.id) = some p :=
    findPost_self db p hndP hp
  have huser : findUserById db p.author_id = some a := by
    rw [hauthor]; exact findUserById_self db a hndU ha
  have hjoin : postUserJoin db p.id = some (mkView p a) := by
    rw [postUserJoin, hfind]
    simp [huser]
  simp [get_post, hjoin, mkView, hauthor, hab]

/-- C3 witness: `bob` fetching `alice`'s post with the ownership check on is
forbidden; `alice` fetching it succeeds. -/
theorem C3_ownership_isolation_witness :
    get_post dbAB (some bob) post1.id true = .abort 403
    ∧ get_post dbAB (some alice) post1.id true = .ok (mkView post1 alice) :=
  C3_ownership_isolation dbAB alice bob post1 (by decide) (by decide)
    (by decide) (by decide) (by decide) (by decide) (by decide)

/-- C4: whether the username matches no row or the stored hash fails to
verify, login answers with the one generic flashed message and hands back the
session unchanged. -/
theorem C4_login_generic_failure (db : DB) (sess : Session)
    (username password : String)
    (h : findUserByName db username = none
       ∨ ∃ u, findUserByName db username = some u
           ∧ check_password_hash u.password password = false) :
    login db sess username password
      = (.render "auth/login.html" ["incorrect username or password"], sess) := by
  rcases h with h | ⟨u, hu, hpw⟩
  · simp [login, h]
  · simp [login, hu, hpw]

/-- C4 witness: an unregistered username and a wrong password for a
registered one produce the identical response with the session untouched. -/
theorem C4_login_generic_failure_witness :
    login dbAB ⟨some 1⟩ "carol" "pw"
      = (.render "auth/login.html" ["incorrect username or password"], ⟨some 1⟩)
    ∧ login dbAB ⟨some 1⟩ "alice" "wrong"
      = (.render "auth/login.html" ["incorrect username or password"], ⟨some 1⟩) :=
  ⟨C4_login_generic_failure dbAB ⟨some 1⟩ "carol" "pw" (Or.inl (by decide)),
   C4_login_generic_failure dbAB ⟨some 1⟩ "alice" "wrong"
     (Or.inr ⟨alice, by decide, by decide⟩)⟩

/-- C5 counterexample: "alice" is already registered, yet registering her
again with the empty password fails with "password not provided" — the
empty-password validation fires before the store is touched, so the response
is not the conflict message the claim requires for every password. -/
theorem C5_counterexample :
    (dbAlice.users.any fun u => u.username == "alice") = true
    ∧ register dbAlice "alice" ""
        = (.render "auth/register.html" ["password not provided"], dbAlice)
    ∧ Response.render "auth/register.html" ["password not provided"]
        ≠ Response.render "auth/register.html" ["user alice is already registered"] :=
  ⟨by decide, by decide, by decide⟩

/-- C5 amended: for every username already present (usernames in the store
being non-empty, per the data model) and every NON-EMPTY password,
registration fails with the already-registered message, the raw integrity
error is not propagated, and the store is handed back unchanged. -/
theorem C5_registration_uniqueness (db : DB) (username password : String)
    (hpresent : (db.users.any fun u => u.username == username) = true)
    (husers : ∀ u ∈ db.users, u.username ≠ "")
    (hpw : password ≠ "") :
    register db username password
      = (.render "auth/register.html"
          ["user " ++ username ++ " is already registered"], db) := by
  obtain ⟨u, hu, hup⟩ := List.any_eq_true.mp hpresent
  have huname : username ≠ "" := by
    have he : u.username = username := by simpa using hup
    exact he ▸ husers u hu
  simp [register, huname, hpw, insertUser, hpresent]

/-- C5 witness: re-registering "alice" with a non-empty password fails with
the conflict message and leaves the store as it was. -/
theorem C5_registration_uniqueness_witness :
    register dbAlice "alice" "pw2"
      = (.render "auth/register.html"
          ["user " ++ "alice" ++ " is already registered"], dbAlice) :=
  C5_registration_uniqueness dbAlice "alice" "pw2" (by decide) (by decide) (by decide)

/-- C6: when no stored post has the requested id, both the fetch and the
delete view abort 404, for every identity slot whatsoever — the absence check
answers before the caller's identity is ever compared to an author id. -/
theorem C6_notfound_precedes_ownership (db : DB) (guser : Option User) (id : Nat)
    (h : ∀ p ∈ db.posts, p.id ≠ id) :
    get_post db guser id true = .abort 404
    ∧ delete db guser id = (.abort 404, db) := by
  have hfind : db.posts.find? (fun q => q.id == id) = none := by
    rw [List.find?_eq_none]
    intro p hp
    simp [h p hp]
  have hjoin : postUserJoin db id = none := by simp [postUserJoin, hfind]
  have hgp : get_post db guser id true = .abort 404 := by simp [get_post, hjoin]
  exact ⟨hgp, by simp [delete, hgp]⟩

/-- C6 witness: deleting the absent post id 99 aborts 404 under `bob`'s
identity. -/
theorem C6_notfound_precedes_ownership_witness :
    get_post dbAB (some bob) 99 true = .abort 404
    ∧ delete dbAB (some bob) 99 = (.abort 404, dbAB) :=
  C6_notfound_precedes_ownership dbAB (some bob) 99 (by decide)

/-- The per-row frame condition of a successful update of post `pid`: ids,
author ids and creation stamps survive, rows of other posts survive whole,
and the touched row carries exactly the new title and body. -/
def frameOk (pid : Nat) (title body : String) (q q' : Post) : Prop :=
  q'.id = q.id ∧ q'.author_id = q.author_id ∧ q'.created = q.created
  ∧ (q.id ≠ pid → q' = q)
  ∧ (q.id = pid → q'.title = title ∧ q'.body = body)

instance (pid : Nat) (title body : String) (q q' : Post) :
    Decidable (frameOk pid title body q q') := by
  unfold frameOk; infer_instance

/-- C7: a successful update by the post's author with a non-empty title
redirects to the index, leaves every user row unchanged, and rewrites the
post table row-for-row under the frame condition: only the touched post's
title and body change; its author id and creation stamp, and every other
post, are untouched. -/
theorem C7_update_frame (db : DB) (a : User) (p : Post) (title body : String)
    (hndU : (db.users.map User.id).Nodup)
    (hndP : (db.posts.map Post.id).Nodup)
    (ha : a ∈ db.users) (hp : p ∈ db.posts)
    (hauthor : p.author_id = a.id) (htitle : title ≠ "") :
    (update db (some a) p.id title body).1 = .redirect "blog.index"
    ∧ (update db (some a) p.id title body).2.users = db.users
    ∧ List.Forall₂ (frameOk p.id title body) db.posts
        (update db (some a) p.id title body).2.posts := by
  have hgp : get_post db (some a) p.id true = .ok (mkView p a) :=
    get_post_author_ok db a p hndU hndP ha hp hauthor
  have hupd : update db (some a) p.id title body
      = (.redirect "blog.index",
         { db with posts := db.posts.map fun q =>
             if q.id == p.id then { q with title := title, body := body } else q }) := by
    simp [update, hgp, htitle]
  rw [hupd]
  refine ⟨rfl, rfl, ?_⟩
  rw [List.forall₂_map_right_iff, List.forall₂_same]
  intro q _hq
  by_cases hid : q.id = p.id
  · simp [hid, frameOk]
  · simp [hid, frameOk]

/-- C7 witness: `alice` updating her post keeps its id, author and creation
stamp while installing the new title and body. -/
theorem C7_update_frame_witness :
    (update dbAB (some alice) post1.id "T2" "B2").1 = .redirect "blog.index"
    ∧ (update dbAB (some alice) post1.id "T2" "B2").2.users = dbAB.users
    ∧ List.Forall₂ (frameOk post1.id "T2" "B2") dbAB.posts
        (update dbAB (some alice) post1.id "T2" "B2").2.posts :=
  C7_update_frame dbAB alice post1 "T2" "B2" (by decide) (by decide)
    (by decide) (by decide) (by decide) (by decide)

/-- C8: a session whose stored user id matches no user row resolves to the
anonymous identity, and so does a session holding no user id; in either case
the resolver returns normally rather than failing. -/
theorem C8_stale_session_anonymous (db : DB) (sess : Session) :
    (∀ uid, sess.user_id = some uid → (∀ u ∈ db.users, u.id ≠ uid) →
      load_logged_in_user db sess = none)
    ∧ (sess.user_id = none → load_logged_in_user db sess = none) := by
  constructor
  · intro uid hsess hno
    have hfind : findUserById db uid = none := by
      rw [findUserById, List.find?_eq_none]
      intro u hu
      simp [hno u hu]
    simp [load_logged_in_user, hsess, hfind]
  · intro hsess
    simp [load_logged_in_user, hsess]

/-- C8 witness: the stale id 99 and the empty session both resolve to
anonymous against the two-user store. -/
theorem C8_stale_session_anonymous_witness :
    load_logged_in_user dbAB ⟨some 99⟩ = none
    ∧ load_logged_in_user dbAB ⟨none⟩ = none :=
  ⟨(C8_stale_session_anonymous dbAB ⟨some 99⟩).1 99 rfl (by decide),
   (C8_stale_session_anonymous dbAB ⟨none⟩).2 rfl⟩

/-- C9: an anonymous POST of the create form with a non-empty title raises
the NoneType subscript error while building the insert's arguments: the store
is handed back unchanged (no row inserted) and the response is the unhandled
error, not the Guard's redirect to login. -/
theorem C9_anonymous_create_raises (db : DB) (now : Nat) (title body : String)
    (htitle : title ≠ "") :
    createRoute db none now title body = (.pyError noneSubscript, db)
    ∧ Response.pyError noneSubscript ≠ Response.redirect "auth.login" := by
  refine ⟨?_, by simp⟩
  simp [createRoute, create, htitle]

/-- C9 witness: the anonymous create of ("T", "B") raises and leaves the
store untouched. -/
theorem C9_anonymous_create_raises_witness :
    createRoute dbAB none 0 "T" "B" = (.pyError noneSubscript, dbAB)
    ∧ Response.pyError noneSubscript ≠ Response.redirect "auth.login" :=
  C9_anonymous_create_raises dbAB 0 "T" "B" (by decide)

/-- C10: a post whose author id matches no user row is dropped by the inner
join — no row of the index listing carries its id, and fetching its id aborts
404 with the ownership check either on or off — although the post row itself
is still stored. -/
theorem C10_orphan_posts_invisible (db : DB) (guser : Option User) (p : Post)
    (hndP : (db.posts.map Post.id).Nodup)
    (hp : p ∈ db.posts)
    (hno : ∀ u ∈ db.users, u.id ≠ p.author_id) :
    (∀ v ∈ index db, v.id ≠ p.id)
    ∧ (∀ ca : Bool, get_post db guser p.id ca = .abort 404) := by
  have huser : findUserById db p.author_id = none := by
    rw [findUserById, List.find?_eq_none]
    intro u hu
    simp [hno u hu]
  have hfind : db.posts.find? (fun q => q.id == p.id) = some p :=
    findPost_self db p hndP hp
  have hjoin : postUserJoin db p.id = none := by
    rw [postUserJoin, hfind]
    simp [huser]
  constructor
  · intro v hv
    rw [index, mem_sortByCreatedDesc, joinedPosts, List.mem_filterMap] at hv
    obtain ⟨q, hq, hqv⟩ := hv
    rcases hfu : findUserById db q.author_id with _ | u
    · rw [hfu] at hqv
      simp at hqv
    · rw [hfu] at hqv
      simp only [Option.map_some'] at hqv
      intro heq
      have hv' : mkView q u = v := by injection hqv
      have hvq : v.id = q.id := by rw [← hv']; rfl
      have hqp : q = p :=
        eq_of_key_eq_of_nodup Post.id db.posts hndP hq hp (hvq ▸ heq)
      rw [hqp, huser] at hfu
      cases hfu
  · intro ca
    cases ca <;> simp [get_post, hjoin]

/-- C10 witness: a store holding a post whose author id 7 matches no user: it
is absent from the index and fetching it aborts 404 both ways. -/
theorem C10_orphan_posts_invisible_witness :
    (∀ v ∈ index ⟨[alice], [⟨5, "T", "B", 3, 7⟩]⟩, v.id ≠ (5 : Nat))
    ∧ (∀ ca : Bool,
        get_post ⟨[alice], [⟨5, "T", "B", 3, 7⟩]⟩ (some alice) 5 ca = .abort 404) :=
  C10_orphan_posts_invisible ⟨[alice], [⟨5, "T", "B", 3, 7⟩]⟩ (some alice)
    ⟨5, "T", "B", 3, 7⟩ (by decide) (by decide) (by decide)

/-- C1: the claim has the Authorization Guard redirect an anonymous request
to the create operation to login without invoking the handler; in the source
the guard decorator on `create` is commented out, so the anonymous request
reaches the handler — a non-empty-title POST raises and does not produce the
redirect — while the guard, applied to the same call, would have answered
with exactly that redirect. -/
theorem C1_create_guard_disabled :
    createRoute dbEmpty none 0 "T" "B" = (.pyError noneSubscript, dbEmpty)
    ∧ createRoute dbEmpty none 0 "T" "B"
        ≠ (Response.redirect "auth.login", dbEmpty)
    ∧ login_required none (Response.redirect "auth.login", dbEmpty)
        (create dbEmpty none 0 "T" "B")
      = (Response.redirect "auth.login", dbEmpty) :=
  ⟨by decide, by decide, rfl⟩

end Flaskr
